import Mathlib

/-!
Verification of the Condor-Shirley-Bridge data pipeline.

Shallow embedding of the Python sources:
  - `condor_shirley_bridge/parsers/nmea_parser.py` (`NMEAParser`)
  - `condor_shirley_bridge/parsers/condor_parser.py` (`CondorUDPParser._update_attitude_data`)
  - `condor_shirley_bridge/core/sim_data.py` (`DataSourceStatus`, `SimData`)
  - `condor_shirley_bridge/io/websocket_server.py` (compatibility-mode encoder and fan-out)

Python strings are modelled as `List Char`, Python floats/ints as `ℚ`/`Int`
(the inputs relevant here are exactly representable), exceptions as `Option`
(`none` = an uncaught exception), and caught exceptions by a `getD` fallback
at the position of the `try`/`except` in the source.
-/

set_option maxRecDepth 8000

attribute [local semireducible] Rat.mul Rat.add Rat.sub Rat.inv Rat.ofScientific

namespace CSB

/-- Python whitespace characters recognised by `str.strip()` (ASCII subset). -/
def isPySpace (c : Char) : Bool :=
  c = ' ' || c = '\t' || c = '\n' || c = '\r' || c = '\x0b' || c = '\x0c'

/-- Python `s.strip()`: drop leading and trailing whitespace. -/
def pyStrip (s : List Char) : List Char :=
  ((s.dropWhile isPySpace).reverse.dropWhile isPySpace).reverse

/-- Python `s.split(sep)` for a single-character separator: splits on every
occurrence, keeping empty segments. -/
def pySplitChar (sep : Char) : List Char → List (List Char)
  | [] => [[]]
  | c :: cs =>
    if c = sep then
      [] :: pySplitChar sep cs
    else
      match pySplitChar sep cs with
      | [] => [[c]]
      | p :: ps => (c :: p) :: ps

/-- Value of a decimal digit list (most significant first). -/
def digitsVal (l : List Char) : Nat :=
  l.foldl (fun acc c => 10 * acc + (c.toNat - '0'.toNat)) 0

/-- Hexadecimal digit test as in Python `int(s, 16)`. -/
def isHexDigitChar (c : Char) : Bool :=
  c.isDigit || ('a' ≤ c && c ≤ 'f') || ('A' ≤ c && c ≤ 'F')

/-- Value of one hexadecimal digit. -/
def hexDigitVal (c : Char) : Nat :=
  if c.isDigit then c.toNat - '0'.toNat
  else if 'a' ≤ c && c ≤ 'f' then c.toNat - 'a'.toNat + 10
  else c.toNat - 'A'.toNat + 10

/-- Value of a hexadecimal digit list (most significant first). -/
def hexDigitsVal (l : List Char) : Nat :=
  l.foldl (fun acc c => 16 * acc + hexDigitVal c) 0

/-- Read an optional leading sign; returns the sign as a multiplier. -/
def readSign : List Char → Int × List Char
  | '+' :: rest => (1, rest)
  | '-' :: rest => (-1, rest)
  | l => (1, l)

/-- Python `int(s)` in base 10: optional surrounding whitespace, optional
sign, then at least one decimal digit. `none` models a `ValueError`. -/
def pyIntDec (s : List Char) : Option Int :=
  let t := pyStrip s
  let (sign, t1) := readSign t
  if t1 ≠ [] ∧ t1.all Char.isDigit then
    some (sign * (digitsVal t1 : Int))
  else
    none

/-- Python `int(s, 16)`: optional surrounding whitespace, optional sign,
optional `0x`/`0X`, then at least one hex digit. `none` models `ValueError`. -/
def pyIntHex (s : List Char) : Option Int :=
  let t := pyStrip s
  let (sign, t1) := readSign t
  let t2 := match t1 with
    | '0' :: 'x' :: rest => rest
    | '0' :: 'X' :: rest => rest
    | l => l
  if t2 ≠ [] ∧ t2.all isHexDigitChar then
    some (sign * (hexDigitsVal t2 : Nat))
  else
    none

/-- Read an optional decimal exponent suffix (`e`/`E`, sign, digits); the
whole remainder must be consumed. `none` models a `ValueError`. -/
def readExpSuffix : List Char → Option Int
  | [] => some 0
  | 'e' :: rest =>
    let (sign, r1) := readSign rest
    if r1 ≠ [] ∧ r1.all Char.isDigit then some (sign * (digitsVal r1 : Int)) else none
  | 'E' :: rest =>
    let (sign, r1) := readSign rest
    if r1 ≠ [] ∧ r1.all Char.isDigit then some (sign * (digitsVal r1 : Int)) else none
  | _ => none

/-- Embed a natural number into `ℚ` without the (deep) `Nat.cast` chain. -/
def qn (n : Nat) : ℚ := mkRat (Int.ofNat n) 1

/-- Embed an integer into `ℚ` without the (deep) `Int.cast` chain. -/
def qz (n : Int) : ℚ := mkRat n 1

/-- Rational power of ten with a natural exponent. -/
def pow10 (n : Nat) : ℚ := qn (Nat.pow 10 n)

/-- Rational power of ten with an integer exponent. -/
def pow10z (e : Int) : ℚ :=
  if 0 ≤ e then pow10 e.toNat else mkRat 1 (Nat.pow 10 (-e).toNat)

/-- Python `float(s)` on decimal notation: optional surrounding whitespace,
optional sign, digits with an optional decimal point (at least one digit in
the mantissa), optional exponent. `none` models a `ValueError`. -/
def pyFloat (s : List Char) : Option ℚ :=
  let t := pyStrip s
  let (sign, t1) := readSign t
  let (intPart, t2) := t1.span Char.isDigit
  let (fracPart, t3) :=
    match t2 with
    | '.' :: r => r.span Char.isDigit
    | _ => ([], t2)
  if intPart = [] ∧ fracPart = [] then none
  else
    match readExpSuffix t3 with
    | none => none
    | some e =>
      let mant : ℚ :=
        qn (digitsVal intPart) + qn (digitsVal fracPart) / pow10 fracPart.length
      some (qz sign * mant * pow10z e)

/-! ## NMEA parser (`parsers/nmea_parser.py`) -/

/-- The `GPSPosition` dataclass. -/
structure GPSPosition where
  timestamp : ℚ
  latitude : ℚ
  longitude : ℚ
  altitude_msl : ℚ
  ground_speed : ℚ
  track_true : ℚ
  fix_quality : Int
  satellites : Int
  valid : Bool
deriving DecidableEq

/-- The `SoaringData` dataclass. -/
structure SoaringData where
  timestamp : ℚ
  ias : ℚ
  baro_altitude : ℚ
  vario : ℚ
  avg_vario : Option ℚ
  heading : ℚ
  track_bearing : Option ℚ
  turn_rate : Option ℚ
  valid : Bool
deriving DecidableEq

/-- The mutable fields set up by `NMEAParser.__init__` (nmea_parser.py
lines 66-83): the two stored records and the two reception times. These are
all the state the parser owns; in particular there is no error counter. -/
structure NMEAParserState where
  gps_position : Option GPSPosition
  soaring_data : Option SoaringData
  last_gps_time : ℚ
  last_soaring_time : ℚ
deriving DecidableEq

/-- A freshly constructed `NMEAParser()`. -/
def initNMEA : NMEAParserState :=
  { gps_position := none, soaring_data := none, last_gps_time := 0, last_soaring_time := 0 }

/-- `MAX_NMEA_LENGTH` from nmea_parser.py. -/
def MAX_NMEA_LENGTH : Nat := 256

/-- `NMEAParser._validate_sentence_length`. -/
def validateSentenceLength (sentence : List Char) : Bool :=
  if sentence.length > MAX_NMEA_LENGTH then false else true

/-- `NMEAParser._validate_coordinates` with the module constants
`MIN_LATITUDE = -90`, `MAX_LATITUDE = 90`, `MIN_LONGITUDE = -180`,
`MAX_LONGITUDE = 180`. -/
def validateCoordinates (latitude longitude : ℚ) : Bool :=
  if ¬ ((-90 : ℚ) ≤ latitude ∧ latitude ≤ 90) then false
  else if ¬ ((-180 : ℚ) ≤ longitude ∧ longitude ≤ 180) then false
  else true

/-- `NMEAParser._validate_altitude` (its result only drives a log warning in
the parse flow, never a rejection). -/
def validateAltitude (altitude : ℚ) : Bool :=
  if ¬ ((-500 : ℚ) ≤ altitude ∧ altitude ≤ 15000) then false else true

/-- `NMEAParser._validate_speed` (warn-only in the parse flow). -/
def validateSpeed (speed : ℚ) : Bool :=
  if ¬ ((0 : ℚ) ≤ speed ∧ speed ≤ 400) then false else true

/-- `NMEAParser._validate_vario` (warn-only in the parse flow). -/
def validateVario (vario : ℚ) : Bool :=
  if ¬ ((-20 : ℚ) ≤ vario ∧ vario ≤ 20) then false else true

/-- `NMEAParser._calculate_checksum`: XOR of all character codes, skipping a
leading `$`. -/
def calculateChecksum (data : List Char) : Nat :=
  let d := match data with
    | '$' :: rest => rest
    | l => l
  d.foldl (fun checksum c => Nat.xor checksum c.toNat) 0

/-- Decode `DDMM.MMMM` plus hemisphere letter to signed decimal degrees
(the latitude block repeated in `_parse_gpgga` and `_parse_gprmc`);
an empty string or hemisphere yields 0.0. -/
def decodeLatitude (latStr latDir : List Char) : Option ℚ :=
  if ¬ latStr.isEmpty ∧ ¬ latDir.isEmpty then do
    let latDeg ← pyFloat (latStr.take 2)
    let latMin ← pyFloat (latStr.drop 2)
    let latitude := latDeg + latMin / 60
    pure (if latDir = ['S'] then -latitude else latitude)
  else
    pure 0

/-- Decode `DDDMM.MMMM` plus hemisphere letter to signed decimal degrees
(the longitude block repeated in `_parse_gpgga` and `_parse_gprmc`). -/
def decodeLongitude (lonStr lonDir : List Char) : Option ℚ :=
  if ¬ lonStr.isEmpty ∧ ¬ lonDir.isEmpty then do
    let lonDeg ← pyFloat (lonStr.take 3)
    let lonMin ← pyFloat (lonStr.drop 3)
    let longitude := lonDeg + lonMin / 60
    pure (if lonDir = ['W'] then -longitude else longitude)
  else
    pure 0

/-- Decode `HHMMSS.SSS` to seconds since midnight; `now` models
`time.time()`, used when the field is empty. -/
def decodeNmeaTime (timeStr : List Char) (now : ℚ) : Option ℚ :=
  if ¬ timeStr.isEmpty then do
    let hours ← pyIntDec (timeStr.take 2)
    let minutes ← pyIntDec ((timeStr.drop 2).take 2)
    let seconds ← pyFloat (timeStr.drop 4)
    pure (qz hours * 3600 + qz minutes * 60 + seconds)
  else
    pure now

/-- Python `int(x) if x else 0`. -/
def pyIntOrZero (s : List Char) : Option Int :=
  if ¬ s.isEmpty then pyIntDec s else pure 0

/-- Python `float(x) if x else 0.0`. -/
def pyFloatOrZero (s : List Char) : Option ℚ :=
  if ¬ s.isEmpty then pyFloat s else pure 0

/-- Python `float(x) if x and x.strip() else None`. -/
def pyFloatOrNone (s : List Char) : Option (Option ℚ) :=
  if ¬ s.isEmpty ∧ ¬ (pyStrip s).isEmpty then Option.map some (pyFloat s) else pure none

/-- The decoded (latitude, longitude) of a GPGGA field list (fields 2-5). -/
def ggaLatLon (fields : List (List Char)) : Option (ℚ × ℚ) := do
  let latitude ← decodeLatitude (fields.getD 2 []) (fields.getD 3 [])
  let longitude ← decodeLongitude (fields.getD 4 []) (fields.getD 5 [])
  pure (latitude, longitude)

/-- The decoded (latitude, longitude) of a GPRMC field list (fields 3-6). -/
def rmcLatLon (fields : List (List Char)) : Option (ℚ × ℚ) := do
  let latitude ← decodeLatitude (fields.getD 3 []) (fields.getD 4 [])
  let longitude ← decodeLongitude (fields.getD 5 []) (fields.getD 6 [])
  pure (latitude, longitude)

/-- Body of `NMEAParser._parse_gpgga` inside its `try`; `none` models a
raised `ValueError`/`IndexError`, caught by the wrapper `parseGpgga`. -/
def parseGpggaCore (now : ℚ) (st : NMEAParserState) (sentence : List Char) :
    Option (Bool × NMEAParserState) := do
  let fields := pySplitChar ',' sentence
  if fields.length < 15 then
    pure (false, st)
  else do
    let timestamp ← decodeNmeaTime (fields.getD 1 []) now
    let (latitude, longitude) ← ggaLatLon fields
    let quality := fields.getD 6 []
    let satellites := fields.getD 7 []
    let altitude := fields.getD 9 []
    let fixQuality ← pyIntOrZero quality
    let sats ← pyIntOrZero satellites
    let altMsl ← pyFloatOrZero altitude
    if ¬ validateCoordinates latitude longitude then
      pure (false, st)
    else
      -- `_validate_altitude` is consulted here but only logs a warning
      let gp : GPSPosition :=
        match st.gps_position with
        | none =>
          { timestamp := timestamp, latitude := latitude, longitude := longitude,
            altitude_msl := altMsl, ground_speed := 0, track_true := 0,
            fix_quality := fixQuality, satellites := sats,
            valid := decide (0 < fixQuality) }
        | some old =>
          { old with
              timestamp := timestamp
              latitude := latitude
              longitude := longitude
              altitude_msl := altMsl
              fix_quality := fixQuality
              satellites := sats
              valid := decide (0 < fixQuality) }
      pure (true, { st with gps_position := some gp, last_gps_time := now })

/-- `NMEAParser._parse_gpgga` (the `except (ValueError, IndexError)` arm
returns `False` and leaves the state alone). -/
def parseGpgga (now : ℚ) (st : NMEAParserState) (sentence : List Char) :
    Bool × NMEAParserState :=
  (parseGpggaCore now st sentence).getD (false, st)

/-- Body of `NMEAParser._parse_gprmc` inside its `try`. -/
def parseGprmcCore (now : ℚ) (st : NMEAParserState) (sentence : List Char) :
    Option (Bool × NMEAParserState) := do
  let fields := pySplitChar ',' sentence
  if fields.length < 12 then
    pure (false, st)
  else do
    let timestamp ← decodeNmeaTime (fields.getD 1 []) now
    let status := fields.getD 2 []
    let speed := fields.getD 7 []
    let course := fields.getD 8 []
    let (latitude, longitude) ← rmcLatLon fields
    let groundSpeed ← pyFloatOrZero speed
    let trackTrue ← pyFloatOrZero course
    let isValid : Bool := status = ['A']
    if ¬ validateCoordinates latitude longitude then
      pure (false, st)
    else
      -- `_validate_speed` is consulted here but only logs a warning
      let gp : GPSPosition :=
        match st.gps_position with
        | none =>
          { timestamp := timestamp, latitude := latitude, longitude := longitude,
            altitude_msl := 0, ground_speed := groundSpeed, track_true := trackTrue,
            fix_quality := if isValid then 1 else 0, satellites := 0,
            valid := isValid }
        | some old =>
          { old with
              timestamp := timestamp
              latitude := latitude
              longitude := longitude
              ground_speed := groundSpeed
              track_true := trackTrue
              valid := if ¬ isValid then false else old.valid }
      pure (true, { st with gps_position := some gp, last_gps_time := now })

/-- `NMEAParser._parse_gprmc` with its exception handler. -/
def parseGprmc (now : ℚ) (st : NMEAParserState) (sentence : List Char) :
    Bool × NMEAParserState :=
  (parseGprmcCore now st sentence).getD (false, st)

/-- Body of `NMEAParser._parse_lxwp0` inside its `try`. -/
def parseLxwp0Core (now : ℚ) (st : NMEAParserState) (sentence : List Char) :
    Option (Bool × NMEAParserState) := do
  let parts := pySplitChar '*' sentence
  let fields := pySplitChar ',' (parts.getD 0 [])
  if fields.length < 11 then
    pure (false, st)
  else do
    let iasStr := fields.getD 2 []
    let altStr := fields.getD 3 []
    let varioStr := fields.getD 4 []
    let avgVarioStr := if fields.length > 5 then fields.getD 5 [] else []
    let headingStr := if fields.length > 11 then fields.getD 11 [] else []
    let trackStr := if fields.length > 12 then fields.getD 12 [] else []
    let turnRateStr := if fields.length > 13 then fields.getD 13 [] else []
    let ias ← pyFloatOrZero iasStr
    let baroAlt ← pyFloatOrZero altStr
    let vario ← pyFloatOrZero varioStr
    let avgVario ← pyFloatOrNone avgVarioStr
    let heading ← pyFloatOrZero headingStr
    let track ← pyFloatOrNone trackStr
    let turnRate ← pyFloatOrNone turnRateStr
    -- `_validate_speed`, `_validate_altitude`, `_validate_vario`: warn-only
    let timestamp := match st.gps_position with
      | some g => g.timestamp
      | none => now
    let sd : SoaringData :=
      { timestamp := timestamp, ias := ias, baro_altitude := baroAlt, vario := vario,
        avg_vario := avgVario, heading := heading, track_bearing := track,
        turn_rate := turnRate, valid := true }
    pure (true, { st with soaring_data := some sd, last_soaring_time := now })

/-- `NMEAParser._parse_lxwp0` with its exception handler. -/
def parseLxwp0 (now : ℚ) (st : NMEAParserState) (sentence : List Char) :
    Bool × NMEAParserState :=
  (parseLxwp0Core now st sentence).getD (false, st)

/-- The sentence-type dispatch ending `NMEAParser.parse_sentence` (the three
compiled `^\$GPGGA` etc. patterns are anchored string matches). -/
def parseSentenceDispatch (now : ℚ) (st : NMEAParserState) (sentence : List Char) :
    Bool × NMEAParserState :=
  if "$GPGGA".toList.isPrefixOf sentence then parseGpgga now st sentence
  else if "$GPRMC".toList.isPrefixOf sentence then parseGprmc now st sentence
  else if "$LXWP0".toList.isPrefixOf sentence then parseLxwp0 now st sentence
  else (false, st)

/-- `NMEAParser.parse_sentence`. The overall result is `none` when
`int(parts[1][:2], 16)` raises an uncaught `ValueError` (no `try` surrounds
the checksum block). -/
def parseSentence (now : ℚ) (st : NMEAParserState) (raw : List Char) :
    Option (Bool × NMEAParserState) :=
  let sentence := pyStrip raw
  if sentence.isEmpty then some (false, st)
  else if ¬ validateSentenceLength sentence then some (false, st)
  else if sentence.contains '*' then
    let parts := pySplitChar '*' sentence
    if parts.length = 2 ∧ (parts.getD 1 []).length ≥ 2 then
      match pyIntHex ((parts.getD 1 []).take 2) with
      | none => none
      | some checksum =>
        if checksum ≠ Int.ofNat (calculateChecksum (parts.getD 0 [])) then some (false, st)
        else some (parseSentenceDispatch now st sentence)
    else some (parseSentenceDispatch now st sentence)
  else some (parseSentenceDispatch now st sentence)

/-! ## Python dictionaries of telemetry values

`sim_data.py` passes around `Dict[str, Any]` whose values are Python
floats/ints (modelled by `ℚ`), booleans, or `None` (`avg_vario` and friends
can be `None`). Python `bool` is a subclass of `int`, so `isinstance(v,
(int, float))` is true for booleans as well. -/

/-- A Python telemetry value. -/
inductive Val where
  | num (q : ℚ)
  | bool (b : Bool)
  | null
deriving DecidableEq

/-- `isinstance(v, (int, float))` — true for numbers and booleans (Python
`bool` is an `int` subclass), false for `None`. -/
def Val.isNumeric : Val → Bool
  | .num _ => true
  | .bool _ => true
  | .null => false

/-- Numeric content of a value used in arithmetic (`True` counts as 1,
`False` as 0; `None` never reaches arithmetic on the guarded paths). -/
def Val.toQ : Val → ℚ
  | .num q => q
  | .bool b => if b then 1 else 0
  | .null => 0

/-- A Python dict (insertion-ordered, unique keys by construction). -/
def Entry : Type := List (String × Val)

instance : DecidableEq Entry := by
  unfold Entry
  infer_instance

/-- Dict lookup: `d[k]` / `d.get(k)`. -/
def dictLookup (d : Entry) (k : String) : Option Val :=
  List.lookup k d

/-- `k in d`. -/
def dictContains (d : Entry) (k : String) : Bool :=
  (dictLookup d k).isSome

/-- `d.get(k, default)`. -/
def dictGetD (d : Entry) (k : String) (v : Val) : Val :=
  (dictLookup d k).getD v

/-- `d[k] = v`: replace in place when the key exists, else append
(CPython dict insertion-order semantics). -/
def dictInsert : Entry → String → Val → Entry
  | [], k, v => [(k, v)]
  | (k0, v0) :: rest, k, v =>
    if k0 = k then (k0, v) :: rest else (k0, v0) :: dictInsert rest k v

/-- `d.update(d2)`: insert every pair of `d2` in order. -/
def dictUpdate (d d2 : Entry) : Entry :=
  d2.foldl (fun acc kv => dictInsert acc kv.1 kv.2) d

/-! ## SimData (`core/sim_data.py`) -/

/-- The `DataSourceStatus` dataclass. -/
structure DataSourceStatus where
  name : String
  connected : Bool
  last_update_time : ℚ
  update_count : Nat
  error_count : Nat
  data_freshness_threshold : ℚ
deriving DecidableEq

/-- `DataSourceStatus.update`: mark as updated at wall-clock time `now`. -/
def DataSourceStatus.update (s : DataSourceStatus) (now : ℚ) : DataSourceStatus :=
  { s with last_update_time := now, update_count := s.update_count + 1, connected := true }

/-- `DataSourceStatus.error`: record an error. -/
def DataSourceStatus.error (s : DataSourceStatus) : DataSourceStatus :=
  { s with error_count := s.error_count + 1 }

/-- `DataSourceStatus.disconnect`: mark as disconnected and zero the last
update time. -/
def DataSourceStatus.disconnect (s : DataSourceStatus) : DataSourceStatus :=
  { s with connected := false, last_update_time := 0 }

/-- `constants.HISTORY_MAX_SIZE`. -/
def HISTORY_MAX_SIZE : Nat := 20

/-- `constants.HISTORY_MAX_AGE` (seconds). -/
def HISTORY_MAX_AGE : ℚ := 60

/-- `constants.HISTORY_CLEANUP_INTERVAL` (updates). -/
def HISTORY_CLEANUP_INTERVAL : Nat := 10

/-- `constants.DATA_FRESHNESS_THRESHOLD` (seconds). -/
def DATA_FRESHNESS_THRESHOLD : ℚ := 5

/-- The state owned by `SimData` (`__init__`). -/
structure SimDataState where
  data : Entry
  nmeaStatus : DataSourceStatus
  condorUdpStatus : DataSourceStatus
  positionHistory : List Entry
  attitudeHistory : List Entry
  motionHistory : List Entry
  updateCounter : Nat
  nmeaFields : List String
  condorUdpFields : List String
  lastUpdateTime : ℚ
deriving DecidableEq

/-- A freshly constructed `SimData()`. -/
def initSimData : SimDataState :=
  { data := []
    nmeaStatus :=
      { name := "NMEA", connected := false, last_update_time := 0, update_count := 0,
        error_count := 0, data_freshness_threshold := DATA_FRESHNESS_THRESHOLD }
    condorUdpStatus :=
      { name := "Condor UDP", connected := false, last_update_time := 0, update_count := 0,
        error_count := 0, data_freshness_threshold := DATA_FRESHNESS_THRESHOLD }
    positionHistory := []
    attitudeHistory := []
    motionHistory := []
    updateCounter := 0
    nmeaFields := []
    condorUdpFields := []
    lastUpdateTime := 0 }

/-- `entry.get("timestamp", 0)` as a rational (history entries always carry
the key, added by `_add_to_history`). -/
def entryTimestamp (e : Entry) : ℚ :=
  (dictGetD e "timestamp" (Val.num 0)).toQ

/-- `SimData._add_to_history` on one category list: stamp, append, and pop
the front when the bound of `HISTORY_MAX_SIZE` entries is exceeded. -/
def addToHistory (hist : List Entry) (e : Entry) (now : ℚ) : List Entry :=
  let e := if dictContains e "timestamp" then e else dictInsert e "timestamp" (Val.num now)
  let hist := hist ++ [e]
  if hist.length > HISTORY_MAX_SIZE then hist.drop 1 else hist

/-- `SimData._cleanup_old_history` on one category list: keep entries with
`now - entry.get("timestamp", 0) < HISTORY_MAX_AGE`. -/
def cleanupHistory (now : ℚ) (hist : List Entry) : List Entry :=
  hist.filter (fun e => now - entryTimestamp e < HISTORY_MAX_AGE)

/-- `SimData._cleanup_old_history` over all three categories. -/
def cleanupOldHistory (now : ℚ) (s : SimDataState) : SimDataState :=
  { s with
      positionHistory := cleanupHistory now s.positionHistory
      attitudeHistory := cleanupHistory now s.attitudeHistory
      motionHistory := cleanupHistory now s.motionHistory }

/-- Python float `%` (sign of the divisor): `a - b * floor(a / b)`. -/
def pymod (a b : ℚ) : ℚ :=
  a - b * qz ((a / b).num.fdiv (Int.ofNat (a / b).den))

/-- `SimData._resolve_data_conflicts`: degrade ground speed to IAS and yaw
to heading when the preferred fields are absent. -/
def resolveDataConflicts (s : SimDataState) : SimDataState :=
  let d := s.data
  let d := if dictContains d "ground_speed" ∧ ¬ dictContains d "ias" then
      dictInsert d "ias" (dictGetD d "ground_speed" (Val.num 0))
    else d
  let d := if dictContains d "yaw_deg" ∧ ¬ dictContains d "heading" then
      dictInsert d "heading" (Val.num (pymod ((dictGetD d "yaw_deg" (Val.num 0)).toQ + 360) 360))
    else d
  { s with data := d }

/-- The soaring field names merged by `_merge_nmea_data`. -/
def soaringFields : List String :=
  ["ias", "baro_altitude", "vario", "avg_vario", "heading", "track_bearing", "turn_rate"]

/-- `SimData._merge_nmea_data`. -/
def mergeNmeaData (now : ℚ) (nmeaData : Entry) (s : SimDataState) : SimDataState :=
  let s :=
    if dictContains nmeaData "latitude" ∧ dictContains nmeaData "longitude" then
      let position : Entry :=
        [("latitude", dictGetD nmeaData "latitude" (Val.num 0)),
         ("longitude", dictGetD nmeaData "longitude" (Val.num 0)),
         ("timestamp", Val.num now)]
      let position := if dictContains nmeaData "altitude_msl" then
          dictInsert position "altitude_msl" (dictGetD nmeaData "altitude_msl" (Val.num 0))
        else position
      let position := if dictContains nmeaData "ground_speed" then
          dictInsert position "ground_speed" (dictGetD nmeaData "ground_speed" (Val.num 0))
        else position
      let position := if dictContains nmeaData "track_true" then
          dictInsert position "track_true" (dictGetD nmeaData "track_true" (Val.num 0))
        else position
      let position := ["fix_quality", "satellites", "gps_valid"].foldl
        (fun acc f => if dictContains nmeaData f then
            dictInsert acc f (dictGetD nmeaData f (Val.num 0))
          else acc) position
      { s with
          data := dictUpdate s.data position
          positionHistory := addToHistory s.positionHistory position now }
    else s
  let s := { s with
      data := soaringFields.foldl
        (fun acc f => if dictContains nmeaData f then
            dictInsert acc f (dictGetD nmeaData f (Val.num 0))
          else acc) s.data }
  if dictContains nmeaData "heading" then
    let attitude : Entry :=
      [("heading", dictGetD nmeaData "heading" (Val.num 0)), ("timestamp", Val.num now)]
    { s with attitudeHistory := addToHistory s.attitudeHistory attitude now }
  else s

/-- The attitude field names merged by `_merge_udp_data`. -/
def attitudeFields : List String :=
  ["yaw_deg", "pitch_deg", "bank_deg",
   "quaternion_x", "quaternion_y", "quaternion_z", "quaternion_w",
   "roll_rate_deg", "pitch_rate_deg", "yaw_rate_deg",
   "yawstring_angle_deg"]

/-- The motion field names merged by `_merge_udp_data`. -/
def motionFields : List String :=
  ["sim_time", "ias_kts", "altitude_m", "vario_mps", "evario_mps",
   "netto_vario_mps", "accel_x", "accel_y", "accel_z",
   "vel_x", "vel_y", "vel_z", "g_force", "height_agl",
   "wheel_height", "turbulence", "surface_roughness"]

/-- The settings field names merged by `_merge_udp_data`. -/
def settingsFields : List String :=
  ["flaps", "mc_setting", "water_ballast", "radio_frequency"]

/-- The motion-loop body of `_merge_udp_data`: the three special fields fall
back into the preferred key only when it is still absent from the model. -/
def mergeUdpMotionField (acc : Entry × Entry × Bool) (f : String) (udpData : Entry) :
    Entry × Entry × Bool :=
  let (data, motion, _hasMotion) := acc
  if dictContains udpData f then
    let v := dictGetD udpData f (Val.num 0)
    let data :=
      if f = "ias_kts" ∧ ¬ dictContains data "ias" then dictInsert data "ias" v
      else if f = "altitude_m" ∧ ¬ dictContains data "altitude_msl" then
        dictInsert data "altitude_msl" v
      else if f = "vario_mps" ∧ ¬ dictContains data "vario" then dictInsert data "vario" v
      else dictInsert data f v
    (data, dictInsert motion f v, true)
  else acc

/-- `SimData._merge_udp_data`. -/
def mergeUdpData (now : ℚ) (udpData : Entry) (s : SimDataState) : SimDataState :=
  let start : Entry × Entry × Bool := (s.data, [("timestamp", Val.num now)], false)
  let (data1, attitude, hasAttitude) := attitudeFields.foldl
    (fun acc f =>
      let (data, att, _has) := acc
      if dictContains udpData f then
        let v := dictGetD udpData f (Val.num 0)
        (dictInsert data f v, dictInsert att f v, true)
      else acc) start
  let s := { s with data := data1 }
  let s := if hasAttitude then
      { s with attitudeHistory := addToHistory s.attitudeHistory attitude now }
    else s
  let (data2, motion, hasMotion) := motionFields.foldl
    (fun acc f => mergeUdpMotionField acc f udpData)
    (s.data, [("timestamp", Val.num now)], false)
  let s := { s with data := data2 }
  let s := if hasMotion then
      { s with motionHistory := addToHistory s.motionHistory motion now }
    else s
  let s := { s with
      data := settingsFields.foldl
        (fun acc f => if dictContains udpData f then
            dictInsert acc f (dictGetD udpData f (Val.num 0))
          else acc) s.data }
  resolveDataConflicts s

/-- Add the keys of an ingested dict to a source field set
(`self._source_fields[...].update(data.keys())`). -/
def addFieldNames (seen : List String) (d : Entry) : List String :=
  d.foldl (fun acc kv => if acc.contains kv.1 then acc else acc ++ [kv.1]) seen

/-- `SimData.update_from_nmea`. -/
def updateFromNmea (now : ℚ) (nmeaData : Entry) (s : SimDataState) : SimDataState :=
  if nmeaData.isEmpty then s
  else
    let s := { s with nmeaFields := addFieldNames s.nmeaFields nmeaData }
    let s := mergeNmeaData now nmeaData s
    let s := { s with
        nmeaStatus := s.nmeaStatus.update now
        lastUpdateTime := now
        updateCounter := s.updateCounter + 1 }
    if s.updateCounter % HISTORY_CLEANUP_INTERVAL = 0 then cleanupOldHistory now s else s

/-- `SimData.update_from_condor_udp`. -/
def updateFromCondorUdp (now : ℚ) (udpData : Entry) (s : SimDataState) : SimDataState :=
  if udpData.isEmpty then s
  else
    let s := { s with condorUdpFields := addFieldNames s.condorUdpFields udpData }
    let s := mergeUdpData now udpData s
    let s := { s with
        condorUdpStatus := s.condorUdpStatus.update now
        lastUpdateTime := now
        updateCounter := s.updateCounter + 1 }
    if s.updateCounter % HISTORY_CLEANUP_INTERVAL = 0 then cleanupOldHistory now s else s

/-- `SimData.get_data` (returns a copy; copies are identities on pure
values). -/
def getData (s : SimDataState) : Entry := s.data

/-- `SimData.reset`: clear the data and histories, disconnect both sources,
clear the seen-field sets, and zero the last update time. -/
def resetSimData (s : SimDataState) : SimDataState :=
  { s with
      data := []
      positionHistory := []
      attitudeHistory := []
      motionHistory := []
      nmeaStatus := s.nmeaStatus.disconnect
      condorUdpStatus := s.condorUdpStatus.disconnect
      nmeaFields := []
      condorUdpFields := []
      lastUpdateTime := 0 }

/-! ## Interpolation (`SimData.interpolate`) -/

/-- Interpolation factor `(t - t1) / (t2 - t1)`, 0 when `t2 == t1`. -/
def interpFactor (t t1 t2 : ℚ) : ℚ :=
  if t2 = t1 then 0 else (t - t1) / (t2 - t1)

/-- Per-field combination of the two enclosing samples: linear interpolation
on numeric values, the nearer sample on anything else. -/
def combineVal (factor : ℚ) (v1 v2 : Val) : Val :=
  if v1.isNumeric && v2.isNumeric then
    Val.num (v1.toQ + factor * (v2.toQ - v1.toQ))
  else if factor > 1 / 2 then v2 else v1

/-- The interpolated record built from the two enclosing samples: the target
timestamp plus, for every non-timestamp key of `point1` also present in
`point2`, the combined value. -/
def interpPair (t : ℚ) (point1 point2 : Entry) : Entry :=
  let factor := interpFactor t (entryTimestamp point1) (entryTimestamp point2)
  ("timestamp", Val.num t) ::
    point1.filterMap (fun kv =>
      if kv.1 = "timestamp" then none
      else
        match dictLookup point2 kv.1 with
        | some v2 => some (kv.1, combineVal factor kv.2 v2)
        | none => none)

/-- The search loop of `interpolate`: the first adjacent pair whose
timestamps enclose `t`. -/
def findPair (t : ℚ) : List Entry → Option (Entry × Entry)
  | e1 :: e2 :: rest =>
    if entryTimestamp e1 ≤ t ∧ t ≤ entryTimestamp e2 then some (e1, e2)
    else findPair t (e2 :: rest)
  | _ => none

/-- `SimData.interpolate` on one category history list. -/
def interpolateHistory (hist : List Entry) (t : ℚ) : Entry :=
  match hist with
  | [] => []
  | e :: rest =>
    if rest.isEmpty then (e :: rest).getLastD e
    else if t ≤ entryTimestamp e then e
    else if entryTimestamp ((e :: rest).getLastD e) ≤ t then (e :: rest).getLastD e
    else
      match findPair t (e :: rest) with
      | some (p1, p2) => interpPair t p1 p2
      | none => (e :: rest).getLastD e

/-! ## WebSocket broadcast (`io/websocket_server.py`, compatibility mode) -/

/-- The nested message built by `_format_for_shirley_compatible`. -/
structure ShirleyCompatMsg where
  position : Entry
  attitude : Entry
deriving DecidableEq

/-- `sim_data.get(k) is not None`. -/
def getIsNotNone (d : Entry) (k : String) : Bool :=
  match dictLookup d k with
  | some Val.null => false
  | some _ => true
  | none => false

/-- `WebSocketServer._format_for_shirley_compatible`. -/
def formatForShirleyCompatible (simData : Entry) : ShirleyCompatMsg :=
  let position : Entry :=
    [("latitudeDeg", dictGetD simData "latitude" (Val.num 0)),
     ("longitudeDeg", dictGetD simData "longitude" (Val.num 0)),
     ("mslAltitudeFt",
       if getIsNotNone simData "altitude_msl" then
         Val.num ((dictGetD simData "altitude_msl" (Val.num 0)).toQ * 3.28084)
       else Val.num 0)]
  let position :=
    if getIsNotNone simData "height_agl" then
      dictInsert position "aglAltitudeFt"
        (Val.num ((dictGetD simData "height_agl" (Val.num 0)).toQ * 3.28084))
    else position
  let attitude : Entry :=
    [("rollAngleDegRight", dictGetD simData "bank_deg" (Val.num 0)),
     ("pitchAngleDegUp", dictGetD simData "pitch_deg" (Val.num 0)),
     ("trueHeadingDeg",
       dictGetD simData "heading" (dictGetD simData "yaw_deg" (Val.num 0)))]
  let attitude :=
    if getIsNotNone simData "turn_rate" then
      dictInsert attitude "turnRateDegPerSec" (dictGetD simData "turn_rate" (Val.num 0))
    else attitude
  { position := position, attitude := attitude }

/-- One `_broadcast_data` tick in compatibility mode: with no subscribers or
no data nothing is sent; otherwise the snapshot is encoded once (and
`json.dumps`-serialized, a deterministic function of it) and that single
message is attempted to every current subscriber. Transport failures affect
delivery, not the payload. -/
def broadcastSendsCompat (connections : List Nat) (simData : Entry) :
    List (Nat × ShirleyCompatMsg) :=
  if connections.isEmpty then []
  else if simData.isEmpty then []
  else
    let message := formatForShirleyCompatible simData
    connections.map (fun c => (c, message))

/-! ## Condor UDP attitude parsing (`parsers/condor_parser.py`) -/

/-- The `CondorAttitudeData` dataclass. -/
structure CondorAttitudeData where
  timestamp : ℚ
  yaw : ℚ
  pitch : ℚ
  bank : ℚ
  quaternion_x : ℚ
  quaternion_y : ℚ
  quaternion_z : ℚ
  quaternion_w : ℚ
  roll_rate : ℚ
  pitch_rate : ℚ
  yaw_rate : ℚ
  yawstring_angle : ℚ
deriving DecidableEq

/-- A parsed key=value dict (`_convert_value` yields ints or floats, both
`ℚ` here). -/
def KVDict : Type := List (String × ℚ)

/-- Lookup in a key=value dict. -/
def kvLookup (d : KVDict) (k : String) : Option ℚ :=
  List.lookup k d

/-- `data_dict.get(k, default)`. -/
def kvGetD (d : KVDict) (k : String) (v : ℚ) : ℚ :=
  (kvLookup d k).getD v

/-- `k in data_dict`. -/
def kvContains (d : KVDict) (k : String) : Bool :=
  (kvLookup d k).isSome

/-- The `CondorAttitudeData(...)` construction inside
`_update_attitude_data`: missing fields default to 0.0 except `quaternionw`,
which defaults to the identity quaternion 1.0. -/
def newAttitudeRecord (dataDict : KVDict) (timestamp : ℚ) : CondorAttitudeData :=
  { timestamp := timestamp
    yaw := kvGetD dataDict "yaw" 0
    pitch := kvGetD dataDict "pitch" 0
    bank := kvGetD dataDict "bank" 0
    quaternion_x := kvGetD dataDict "quaternionx" 0
    quaternion_y := kvGetD dataDict "quaterniony" 0
    quaternion_z := kvGetD dataDict "quaternionz" 0
    quaternion_w := kvGetD dataDict "quaternionw" 1
    roll_rate := kvGetD dataDict "rollrate" 0
    pitch_rate := kvGetD dataDict "pitchrate" 0
    yaw_rate := kvGetD dataDict "yawrate" 0
    yawstring_angle := kvGetD dataDict "yawstringangle" 0 }

/-- `CondorUDPParser._update_attitude_data`: build a fresh attitude record
when any of `yaw`, `pitch`, `bank`, `quaternionx` is present, else leave the
stored record alone. -/
def updateAttitudeData (dataDict : KVDict) (timestamp : ℚ)
    (old : Option CondorAttitudeData) : Option CondorAttitudeData :=
  if ¬ (kvContains dataDict "yaw" ∨ kvContains dataDict "pitch" ∨
        kvContains dataDict "bank" ∨ kvContains dataDict "quaternionx") then
    old
  else
    some (newAttitudeRecord dataDict timestamp)

/-! ## Concrete scenario data -/

/-- The body of the repository's sample GPGGA sentence (checksum 0x02). -/
def ggaBody : List Char :=
  "$GPGGA,170000.021,4553.3709,N,01353.4357,E,1,12,10,117.4,M,,,,,0000".toList

/-- The sample GPGGA sentence with a wrong checksum `FF` (spec scenario 5). -/
def ggaBadChecksum : List Char := ggaBody ++ '*' :: "FF".toList

/-- The sample GPGGA sentence with a wrong checksum `FF` followed by a second
`*`: `split("*")` yields three parts, so `parse_sentence` skips checksum
validation entirely. -/
def ggaTwoStars : List Char := ggaBody ++ '*' :: "FF".toList ++ '*' :: "00".toList

/-- A GPGGA sentence whose latitude field `9553.3709` decodes to about
95.89 degrees, outside the valid range. -/
def ggaBadLatitude : List Char :=
  "$GPGGA,170000.021,9553.3709,N,01353.4357,E,1,12,10,117.4,M,,,,,0000*02".toList

/-- A GPRMC sentence whose longitude field `19153.4357` decodes to about
191.89 degrees, outside the valid range. -/
def rmcBadLongitude : List Char :=
  "$GPRMC,170000.021,A,4553.3709,N,19153.4357,E,0.00,267.45,,,,*23".toList

/-- The KV-side update of the conflict-resolution scenario: `altitude` 1510 m
(exposed as `altitude_m`), `vario` 1.0 m/s (exposed as `vario_mps`), and
`yaw_deg` 269. -/
def c4Udp : Entry :=
  [("yaw_deg", Val.num 269), ("altitude_m", Val.num 1510), ("vario_mps", Val.num 1)]

/-- The NMEA-side update of the conflict-resolution scenario. A combined NMEA
view carrying `altitude_msl` always carries `latitude`/`longitude` too
(`get_combined_data` adds the GPS fields as one block). -/
def c4Nmea : Entry :=
  [("latitude", Val.num 45.889515), ("longitude", Val.num 13.890595),
   ("altitude_msl", Val.num 1500), ("vario", Val.num 1.2), ("heading", Val.num 268)]

/-- The model state after the conflict-resolution ingest sequence
(KV at t=1, then NMEA at t=2), starting from an empty model. -/
def c4Final : SimDataState := updateFromNmea 2 c4Nmea (updateFromCondorUdp 1 c4Udp initSimData)

/-- The scenario-1 Snapshot (decoded sample GPGGA). -/
def snap1 : Entry :=
  [("latitude", Val.num 45.889515), ("longitude", Val.num 13.890595),
   ("altitude_msl", Val.num 117.4)]

/-- A history sample at t=0. -/
def sample0 : Entry :=
  [("timestamp", Val.num 0), ("x", Val.num 10), ("b", Val.bool true)]

/-- A history sample at t=10. -/
def sample10 : Entry :=
  [("timestamp", Val.num 10), ("x", Val.num 20), ("b", Val.bool false)]

/-- A full history buffer of 20 entries. -/
def fullHistory : List Entry := List.replicate 20 [("timestamp", Val.num 1)]

/-! ## Helper lemmas -/

theorem pySplitChar_no_sep (sep : Char) (l : List Char) (h : sep ∉ l) :
    pySplitChar sep l = [l] := by
  induction l with
  | nil => rfl
  | cons c cs ih =>
    have hc : c ≠ sep := fun hcs => h (hcs ▸ List.mem_cons_self c cs)
    have hcs : sep ∉ cs := fun hin => h (List.mem_cons_of_mem c hin)
    simp only [pySplitChar, if_neg hc, ih hcs]

theorem pySplitChar_append (sep : Char) (a b : List Char) (ha : sep ∉ a) :
    pySplitChar sep (a ++ sep :: b) = a :: pySplitChar sep b := by
  induction a with
  | nil => simp [pySplitChar]
  | cons c cs ih =>
    have hc : c ≠ sep := fun hcs => ha (hcs ▸ List.mem_cons_self c cs)
    have hcs : sep ∉ cs := fun hin => ha (List.mem_cons_of_mem c hin)
    have ih2 := ih hcs
    simp only [List.cons_append, pySplitChar, if_neg hc]
    rw [show cs.append (sep :: b) = cs ++ sep :: b from rfl, ih2]

/-! ## C4 -/

/-- C4: starting from an empty model, a KV ingest (altitude 1510, vario 1.0,
yaw 269) followed by an NMEA ingest (altitude_msl 1500, vario 1.2, heading
268) leaves a Snapshot with altitude_msl = 1500, vario = 1.2, heading = 268
and yaw_deg = 269: the NMEA values win for altitude, vario and heading while
the KV yaw field is preserved. -/
theorem c4_conflict_resolution :
    dictLookup (getData c4Final) "altitude_msl" = some (Val.num 1500) ∧
    dictLookup (getData c4Final) "vario" = some (Val.num 1.2) ∧
    dictLookup (getData c4Final) "heading" = some (Val.num 268) ∧
    dictLookup (getData c4Final) "yaw_deg" = some (Val.num 269) := by
  refine ⟨?_, ?_, ?_, ?_⟩ <;> decide

/-! ## C6 -/

/-- C6 (amended): `last_update_time` never decreases under `update` (given a
non-decreasing wall clock) and is unchanged by `error`; but `disconnect`
(also invoked on every source by `SimData.reset`) resets it to 0 rather than
keeping it non-decreasing. -/
theorem c6_last_update_monotone (s : DataSourceStatus) (now : ℚ) :
    (s.last_update_time ≤ now → s.last_update_time ≤ (s.update now).last_update_time) ∧
    (s.error).last_update_time = s.last_update_time ∧
    (s.disconnect).last_update_time = 0 := by
  refine ⟨fun h => ?_, rfl, rfl⟩
  simpa [DataSourceStatus.update] using h

/-- C6 witness: the amended monotonicity facts at a concrete source and
time. -/
theorem c6_last_update_monotone_witness :
    initSimData.nmeaStatus.last_update_time ≤
      (initSimData.nmeaStatus.update 5).last_update_time ∧
    (initSimData.nmeaStatus.error).last_update_time =
      initSimData.nmeaStatus.last_update_time ∧
    (initSimData.nmeaStatus.disconnect).last_update_time = 0 :=
  ⟨(c6_last_update_monotone initSimData.nmeaStatus 5).1 (by decide),
   (c6_last_update_monotone initSimData.nmeaStatus 5).2.1,
   (c6_last_update_monotone initSimData.nmeaStatus 5).2.2⟩

/-- C6 counterexample: after `update` at time 5, `disconnect` drops
`last_update_time` from 5 to 0 — the stored last-update timestamp
strictly decreases, refuting the claim as stated. -/
theorem c6_counterexample :
    ((initSimData.nmeaStatus.update 5).disconnect).last_update_time <
      (initSimData.nmeaStatus.update 5).last_update_time := by
  decide

/-! ## C8 -/

/-- C8: after `reset`, and before any further ingest, `get_data()` is empty,
both source statuses report `connected = false`, and all three history
buffers are empty. -/
theorem c8_reset_clears_state (s : SimDataState) :
    getData (resetSimData s) = [] ∧
    (resetSimData s).nmeaStatus.connected = false ∧
    (resetSimData s).condorUdpStatus.connected = false ∧
    (resetSimData s).positionHistory = [] ∧
    (resetSimData s).attitudeHistory = [] ∧
    (resetSimData s).motionHistory = [] := by
  refine ⟨rfl, rfl, rfl, rfl, rfl, rfl⟩

/-! ## C10 -/

/-- C10: a KV dict carrying at least one of `yaw`, `pitch`, `bank`,
`quaternionx` but not `quaternionw` produces an attitude record whose
`quaternion_w` is the identity 1.0, while every other absent attitude field
defaults to 0.0. -/
theorem c10_attitude_quaternion_default (d : KVDict) (ts : ℚ)
    (old : Option CondorAttitudeData)
    (hsome : kvContains d "yaw" ∨ kvContains d "pitch" ∨ kvContains d "bank" ∨
      kvContains d "quaternionx")
    (hqw : kvLookup d "quaternionw" = none) :
    updateAttitudeData d ts old = some (newAttitudeRecord d ts) ∧
      (newAttitudeRecord d ts).quaternion_w = 1 ∧
      (kvLookup d "yaw" = none → (newAttitudeRecord d ts).yaw = 0) ∧
      (kvLookup d "pitch" = none → (newAttitudeRecord d ts).pitch = 0) ∧
      (kvLookup d "bank" = none → (newAttitudeRecord d ts).bank = 0) ∧
      (kvLookup d "quaternionx" = none → (newAttitudeRecord d ts).quaternion_x = 0) ∧
      (kvLookup d "quaterniony" = none → (newAttitudeRecord d ts).quaternion_y = 0) ∧
      (kvLookup d "quaternionz" = none → (newAttitudeRecord d ts).quaternion_z = 0) ∧
      (kvLookup d "rollrate" = none → (newAttitudeRecord d ts).roll_rate = 0) ∧
      (kvLookup d "pitchrate" = none → (newAttitudeRecord d ts).pitch_rate = 0) ∧
      (kvLookup d "yawrate" = none → (newAttitudeRecord d ts).yaw_rate = 0) ∧
      (kvLookup d "yawstringangle" = none → (newAttitudeRecord d ts).yawstring_angle = 0) := by
  refine ⟨?_, ?_, ?_, ?_, ?_, ?_, ?_, ?_, ?_, ?_, ?_, ?_⟩
  · unfold updateAttitudeData
    exact if_neg (not_not_intro hsome)
  · simp [newAttitudeRecord, kvGetD, hqw]
  all_goals intro h
  all_goals simp [newAttitudeRecord, kvGetD, h]

/-- C10 witness: a dict carrying only `yaw` yields the identity quaternion
and zero defaults. -/
theorem c10_attitude_quaternion_default_witness :
    updateAttitudeData [("yaw", (1.57 : ℚ))] 5 none =
      some (newAttitudeRecord [("yaw", (1.57 : ℚ))] 5) ∧
    (newAttitudeRecord [("yaw", (1.57 : ℚ))] 5).quaternion_w = 1 ∧
    (newAttitudeRecord [("yaw", (1.57 : ℚ))] 5).pitch = 0 :=
  let h := c10_attitude_quaternion_default [("yaw", (1.57 : ℚ))] 5 none
    (Or.inl (by decide)) (by decide)
  ⟨h.1, h.2.1, h.2.2.2.1 (by decide)⟩

/-! ## C5 -/

theorem addToHistory_length (hist : List Entry) (e : Entry) (now : ℚ) :
    (addToHistory hist e now).length =
      if hist.length + 1 > HISTORY_MAX_SIZE then hist.length else hist.length + 1 := by
  unfold addToHistory
  generalize (if dictContains e "timestamp" then e
    else dictInsert e "timestamp" (Val.num now)) = x
  by_cases h : (hist ++ [x]).length > HISTORY_MAX_SIZE
  · rw [if_pos h, if_pos (by simpa using h)]
    simp
  · rw [if_neg h, if_neg (by simpa using h)]
    simp

theorem foldl_addToHistory_length (es : List Entry) (hist : List Entry) (now : ℚ)
    (h : hist.length ≤ HISTORY_MAX_SIZE) :
    (es.foldl (fun l e => addToHistory l e now) hist).length =
      min (hist.length + es.length) HISTORY_MAX_SIZE := by
  induction es generalizing hist with
  | nil => simp; omega
  | cons e es ih =>
    rw [List.foldl_cons, ih]
    · rw [addToHistory_length]
      split <;> (unfold HISTORY_MAX_SIZE at *; simp; omega)
    · rw [addToHistory_length]
      split <;> omega

/-- C5 (amended): each history buffer is bounded at 20 entries — a run of
`n` appends onto an empty buffer leaves `min n 20` entries, and an append to
a full buffer drops the oldest entry — and the cleanup pass removes exactly
those entries whose age is at least 60 seconds (`now - ts < 60` is kept), so
a prune when all entries are strictly older than 60 s leaves the buffer
empty. -/
theorem c5_history_bound_and_prune :
    (∀ (es : List Entry) (now : ℚ),
      (es.foldl (fun l e => addToHistory l e now) []).length =
        min es.length HISTORY_MAX_SIZE) ∧
    (∀ (hist : List Entry) (e : Entry) (now : ℚ), hist.length = HISTORY_MAX_SIZE →
      addToHistory hist e now = hist.drop 1 ++
        [if dictContains e "timestamp" then e else dictInsert e "timestamp" (Val.num now)]) ∧
    (∀ (now : ℚ) (hist : List Entry) (e : Entry),
      e ∈ cleanupHistory now hist ↔ e ∈ hist ∧ now - entryTimestamp e < HISTORY_MAX_AGE) ∧
    (∀ (now : ℚ) (hist : List Entry),
      (∀ e ∈ hist, HISTORY_MAX_AGE < now - entryTimestamp e) →
      cleanupHistory now hist = []) := by
  refine ⟨?_, ?_, ?_, ?_⟩
  · intro es now
    rw [foldl_addToHistory_length es [] now (by simp)]
    simp
  · intro hist e now hlen
    unfold addToHistory
    generalize (if dictContains e "timestamp" then e
      else dictInsert e "timestamp" (Val.num now)) = x
    rw [if_pos (by simp [hlen, HISTORY_MAX_SIZE])]
    exact List.drop_append_of_le_length (by rw [hlen]; decide)
  · intro now hist e
    simp [cleanupHistory, List.mem_filter]
  · intro now hist h
    rw [cleanupHistory, List.filter_eq_nil_iff]
    intro e he
    simpa using not_lt.mpr (le_of_lt (h e he))

/-- C5 witness: 25 appends to an empty buffer leave 20 entries; an append to
a full buffer drops the oldest entry; and a prune at t = 70 of a buffer
whose single entry is 70 s old leaves it empty. -/
theorem c5_history_bound_and_prune_witness :
    ((List.replicate 25 sample0).foldl (fun l e => addToHistory l e 5) []).length =
      min 25 HISTORY_MAX_SIZE ∧
    addToHistory fullHistory sample0 5 = fullHistory.drop 1 ++ [sample0] ∧
    cleanupHistory 70 [[("timestamp", Val.num 0)]] = [] :=
  ⟨by simpa using c5_history_bound_and_prune.1 (List.replicate 25 sample0) 5,
   by simpa using c5_history_bound_and_prune.2.1 fullHistory sample0 5 (by decide),
   c5_history_bound_and_prune.2.2.2 70 [[("timestamp", Val.num 0)]] (by decide)⟩

/-- C5 counterexample: an entry whose age is exactly 60 s does not exceed
60 s, yet the cleanup pass removes it — refuting "removes exactly those
entries whose age exceeds 60 seconds" at the boundary. -/
theorem c5_counterexample :
    cleanupHistory 60 [[("timestamp", Val.num 0)]] = [] ∧
    ¬ (60 - entryTimestamp [("timestamp", Val.num 0)] > HISTORY_MAX_AGE) := by
  refine ⟨by decide, by decide⟩

/-! ## C9 -/

theorem dictLookup_insert_ne (d : Entry) (k k2 : String) (v : Val) (h : k2 ≠ k) :
    dictLookup (dictInsert d k v) k2 = dictLookup d k2 := by
  induction d with
  | nil => simp [dictInsert, dictLookup, List.lookup, beq_eq_false_iff_ne.mpr h]
  | cons kv rest ih =>
    by_cases hk : kv.1 = k
    · simp only [dictInsert, dictLookup, List.lookup, if_pos hk]
      rcases kv with ⟨k1, v1⟩
      simp only at hk
      subst hk
      simp [List.lookup, beq_eq_false_iff_ne.mpr h]
    · simp only [dictInsert, dictLookup, List.lookup, if_neg hk] at ih ⊢
      rcases kv with ⟨k1, v1⟩
      by_cases h2 : k2 = k1
      · subst h2
        simp [List.lookup]
      · simp only at hk
        simp [List.lookup, beq_eq_false_iff_ne.mpr h2, ih]

/-- C9: whenever the Snapshot holds numeric `latitude`, `longitude` and
`altitude_msl`, the compatibility-mode encoder emits `position.latitudeDeg`
and `position.longitudeDeg` equal to the Snapshot values and
`position.mslAltitudeFt` equal to `altitude_msl * 3.28084`; and one
broadcast tick sends the one encoded message to every subscriber. -/
theorem c9_compat_encoding_broadcast (d : Entry) (lat lon alt : ℚ) (conns : List Nat)
    (hlat : dictLookup d "latitude" = some (Val.num lat))
    (hlon : dictLookup d "longitude" = some (Val.num lon))
    (halt : dictLookup d "altitude_msl" = some (Val.num alt)) :
    dictLookup (formatForShirleyCompatible d).position "latitudeDeg" = some (Val.num lat) ∧
    dictLookup (formatForShirleyCompatible d).position "longitudeDeg" = some (Val.num lon) ∧
    dictLookup (formatForShirleyCompatible d).position "mslAltitudeFt" =
      some (Val.num (alt * 3.28084)) ∧
    broadcastSendsCompat conns d =
      conns.map (fun c => (c, formatForShirleyCompatible d)) ∧
    ∀ p ∈ broadcastSendsCompat conns d, p.2 = formatForShirleyCompatible d := by
  have hne : d.isEmpty = false := by
    cases d with
    | nil => simp [dictLookup, List.lookup] at hlat
    | cons kv rest => simp
  have hpos : ∀ k2, k2 ≠ "aglAltitudeFt" →
      dictLookup (formatForShirleyCompatible d).position k2 =
        dictLookup
          [("latitudeDeg", dictGetD d "latitude" (Val.num 0)),
           ("longitudeDeg", dictGetD d "longitude" (Val.num 0)),
           ("mslAltitudeFt",
             if getIsNotNone d "altitude_msl" then
               Val.num ((dictGetD d "altitude_msl" (Val.num 0)).toQ * 3.28084)
             else Val.num 0)] k2 := by
    intro k2 hk2
    unfold formatForShirleyCompatible
    simp only
    split
    · rw [dictLookup_insert_ne _ _ _ _ hk2]
    · rfl
  have hbroadcast : broadcastSendsCompat conns d =
      conns.map (fun c => (c, formatForShirleyCompatible d)) := by
    unfold broadcastSendsCompat
    rw [hne]
    cases conns with
    | nil => simp
    | cons c cs => simp
  have hlat2 : List.lookup "latitude" d = some (Val.num lat) := hlat
  have hlon2 : List.lookup "longitude" d = some (Val.num lon) := hlon
  have halt2 : List.lookup "altitude_msl" d = some (Val.num alt) := halt
  refine ⟨?_, ?_, ?_, hbroadcast, ?_⟩
  · rw [hpos _ (by decide)]
    simp [dictLookup, List.lookup, dictGetD, hlat2]
  · rw [hpos _ (by decide)]
    simp [dictLookup, List.lookup, dictGetD, hlon2]
  · rw [hpos _ (by decide)]
    simp [dictLookup, List.lookup, dictGetD, getIsNotNone, halt2, Val.toQ]
  · intro p hp
    rw [hbroadcast] at hp
    obtain ⟨c, _, rfl⟩ := List.mem_map.mp hp
    rfl

/-- C9 witness: the scenario-1 Snapshot encodes to
`mslAltitudeFt = 117.4 * 3.28084 = 385.170616` and both subscribers of a
two-subscriber tick receive that one message. -/
theorem c9_compat_encoding_broadcast_witness :
    dictLookup (formatForShirleyCompatible snap1).position "latitudeDeg" =
      some (Val.num 45.889515) ∧
    dictLookup (formatForShirleyCompatible snap1).position "mslAltitudeFt" =
      some (Val.num (117.4 * 3.28084)) ∧
    broadcastSendsCompat [1, 2] snap1 =
      [(1, formatForShirleyCompatible snap1), (2, formatForShirleyCompatible snap1)] :=
  let h := c9_compat_encoding_broadcast snap1 45.889515 13.890595 117.4 [1, 2]
    (by decide) (by decide) (by decide)
  ⟨h.1, h.2.2.1, by rw [h.2.2.2.1]; rfl⟩

/-! ## C1 -/

/-- C1 counterexample: a sentence containing `*` whose two hex digits after
the `*` (`FF`, value 255) differ from the XOR of the characters between the
leading `$` and that `*` (value 2) is nevertheless parsed successfully,
because a second `*` later in the sentence makes `split("*")` yield three
parts and the checksum check is skipped. -/
theorem c1_counterexample :
    ggaTwoStars.contains '*' = true ∧
    (pySplitChar '*' ggaTwoStars).getD 1 [] = "FF".toList ∧
    pyIntHex (((pySplitChar '*' ggaTwoStars).getD 1 []).take 2) = some 255 ∧
    calculateChecksum ((pySplitChar '*' ggaTwoStars).getD 0 []) = 2 ∧
    Option.map Prod.fst (parseSentence 0 initNMEA ggaTwoStars) = some true := by
  refine ⟨by decide, by decide, by decide, by decide, by decide⟩

/-- C1 (amended): for a sentence containing exactly one `*`, when the two
hex digits that follow the `*` parse to a value different from the XOR
checksum of the part before the `*` (computed skipping the leading `$`),
`parse_sentence` returns `False` and the parser state is unchanged. -/
theorem c1_bad_checksum_rejected (now : ℚ) (st : NMEAParserState)
    (pre rest : List Char) (v : Int)
    (hpre : '*' ∉ pre) (hrest : '*' ∉ rest) (h2 : 2 ≤ rest.length)
    (hstrip : pyStrip (pre ++ '*' :: rest) = pre ++ '*' :: rest)
    (hhex : pyIntHex (rest.take 2) = some v)
    (hne : v ≠ Int.ofNat (calculateChecksum pre)) :
    parseSentence now st (pre ++ '*' :: rest) = some (false, st) := by
  have hsplit : pySplitChar '*' (pre ++ '*' :: rest) = [pre, rest] := by
    rw [pySplitChar_append '*' pre rest hpre, pySplitChar_no_sep '*' rest hrest]
  have hcontains : (pre ++ '*' :: rest).contains '*' = true := by
    simp [List.contains, List.elem_eq_mem]
  have hnonempty : (pre ++ '*' :: rest).isEmpty = false := by
    cases pre <;> simp
  unfold parseSentence
  simp only [hstrip]
  rw [hnonempty]
  by_cases hlen : validateSentenceLength (pre ++ '*' :: rest)
  · rw [if_neg (by simp), if_neg (by simp [hlen]), if_pos (by simp [hcontains]), hsplit]
    rw [if_pos (by simpa using h2)]
    simp only [List.getD_cons_succ, List.getD_cons_zero]
    rw [hhex]
    simp only [ne_eq, ite_not, ite_eq_right_iff]
    intro h
    exact absurd h hne
  · rw [if_neg (by simp), if_pos (by simp [hlen])]

/-- C1 witness: the amended rejection at the sample GPGGA sentence with
checksum digits `FF` in place of the correct `02`. -/
theorem c1_bad_checksum_rejected_witness :
    parseSentence 0 initNMEA (ggaBody ++ '*' :: "FF".toList) = some (false, initNMEA) :=
  c1_bad_checksum_rejected 0 initNMEA ggaBody "FF".toList 255
    (by decide) (by decide) (by decide) (by decide) (by decide) (by decide)

/-! ## C3 -/

theorem optSomeBind {α β : Type} (a : α) (f : α → Option β) : (some a >>= f) = f a := rfl

theorem optNoneBind {α β : Type} (f : α → Option β) : ((none : Option α) >>= f) = none := rfl

theorem parseGpggaCore_cases (now : ℚ) (st : NMEAParserState) (s : List Char)
    (b : Bool) (st2 : NMEAParserState)
    (h : parseGpggaCore now st s = some (b, st2)) : b = true ∨ st2 = st := by
  rw [parseGpggaCore] at h
  by_cases hlen : (pySplitChar ',' s).length < 15
  · rw [if_pos hlen] at h
    simp only [Option.pure_def, Option.some.injEq, Prod.mk.injEq] at h
    exact Or.inr h.2.symm
  · rw [if_neg hlen] at h
    cases h1 : decodeNmeaTime ((pySplitChar ',' s).getD 1 []) now with
    | none => rw [h1] at h; simp [optNoneBind] at h
    | some ts =>
      rw [h1] at h
      simp only [optSomeBind] at h
      cases h2 : ggaLatLon (pySplitChar ',' s) with
      | none => rw [h2] at h; simp [optNoneBind] at h
      | some p =>
        obtain ⟨lat, lon⟩ := p
        rw [h2] at h
        simp only [optSomeBind] at h
        cases h3 : pyIntOrZero ((pySplitChar ',' s).getD 6 []) with
        | none => rw [h3] at h; simp [optNoneBind] at h
        | some fq =>
          rw [h3] at h
          simp only [optSomeBind] at h
          cases h4 : pyIntOrZero ((pySplitChar ',' s).getD 7 []) with
          | none => rw [h4] at h; simp [optNoneBind] at h
          | some sats =>
            rw [h4] at h
            simp only [optSomeBind] at h
            cases h5 : pyFloatOrZero ((pySplitChar ',' s).getD 9 []) with
            | none => rw [h5] at h; simp [optNoneBind] at h
            | some alt =>
              rw [h5] at h
              simp only [optSomeBind] at h
              by_cases hval : validateCoordinates lat lon
              · rw [if_neg (by simp [hval])] at h
                simp only [Option.pure_def, Option.some.injEq, Prod.mk.injEq] at h
                exact Or.inl h.1.symm
              · rw [if_pos hval] at h
                simp only [Option.pure_def, Option.some.injEq, Prod.mk.injEq] at h
                exact Or.inr h.2.symm

theorem parseGprmcCore_cases (now : ℚ) (st : NMEAParserState) (s : List Char)
    (b : Bool) (st2 : NMEAParserState)
    (h : parseGprmcCore now st s = some (b, st2)) : b = true ∨ st2 = st := by
  rw [parseGprmcCore] at h
  by_cases hlen : (pySplitChar ',' s).length < 12
  · rw [if_pos hlen] at h
    simp only [Option.pure_def, Option.some.injEq, Prod.mk.injEq] at h
    exact Or.inr h.2.symm
  · rw [if_neg hlen] at h
    cases h1 : decodeNmeaTime ((pySplitChar ',' s).getD 1 []) now with
    | none => rw [h1] at h; simp [optNoneBind] at h
    | some ts =>
      rw [h1] at h
      simp only [optSomeBind] at h
      cases h2 : rmcLatLon (pySplitChar ',' s) with
      | none => rw [h2] at h; simp [optNoneBind] at h
      | some p =>
        obtain ⟨lat, lon⟩ := p
        rw [h2] at h
        simp only [optSomeBind] at h
        cases h3 : pyFloatOrZero ((pySplitChar ',' s).getD 7 []) with
        | none => rw [h3] at h; simp [optNoneBind] at h
        | some gs =>
          rw [h3] at h
          simp only [optSomeBind] at h
          cases h4 : pyFloatOrZero ((pySplitChar ',' s).getD 8 []) with
          | none => rw [h4] at h; simp [optNoneBind] at h
          | some tt =>
            rw [h4] at h
            simp only [optSomeBind] at h
            by_cases hval : validateCoordinates lat lon
            · rw [if_neg (by simp [hval])] at h
              simp only [Option.pure_def, Option.some.injEq, Prod.mk.injEq] at h
              exact Or.inl h.1.symm
            · rw [if_pos hval] at h
              simp only [Option.pure_def, Option.some.injEq, Prod.mk.injEq] at h
              exact Or.inr h.2.symm

theorem parseLxwp0Core_cases (now : ℚ) (st : NMEAParserState) (s : List Char)
    (b : Bool) (st2 : NMEAParserState)
    (h : parseLxwp0Core now st s = some (b, st2)) : b = true ∨ st2 = st := by
  rw [parseLxwp0Core] at h
  by_cases hlen : (pySplitChar ',' ((pySplitChar '*' s).getD 0 [])).length < 11
  · rw [if_pos hlen] at h
    simp only [Option.pure_def, Option.some.injEq, Prod.mk.injEq] at h
    exact Or.inr h.2.symm
  · rw [if_neg hlen] at h
    simp only [] at h
    cases h1 : pyFloatOrZero ((pySplitChar ',' ((pySplitChar '*' s).getD 0 [])).getD 2 []) with
    | none => rw [h1] at h; simp [optNoneBind] at h
    | some ias =>
      rw [h1] at h
      simp only [optSomeBind] at h
      cases h2 : pyFloatOrZero ((pySplitChar ',' ((pySplitChar '*' s).getD 0 [])).getD 3 []) with
      | none => rw [h2] at h; simp [optNoneBind] at h
      | some alt =>
        rw [h2] at h
        simp only [optSomeBind] at h
        cases h3 : pyFloatOrZero
            ((pySplitChar ',' ((pySplitChar '*' s).getD 0 [])).getD 4 []) with
        | none => rw [h3] at h; simp [optNoneBind] at h
        | some vario =>
          rw [h3] at h
          simp only [optSomeBind] at h
          cases h4 : pyFloatOrNone
              (if (pySplitChar ',' ((pySplitChar '*' s).getD 0 [])).length > 5 then
                (pySplitChar ',' ((pySplitChar '*' s).getD 0 [])).getD 5 []
              else []) with
          | none => rw [h4] at h; simp [optNoneBind] at h
          | some av =>
            rw [h4] at h
            simp only [optSomeBind] at h
            cases h5 : pyFloatOrZero
                (if (pySplitChar ',' ((pySplitChar '*' s).getD 0 [])).length > 11 then
                  (pySplitChar ',' ((pySplitChar '*' s).getD 0 [])).getD 11 []
                else []) with
            | none => rw [h5] at h; simp [optNoneBind] at h
            | some hd =>
              rw [h5] at h
              simp only [optSomeBind] at h
              cases h6 : pyFloatOrNone
                  (if (pySplitChar ',' ((pySplitChar '*' s).getD 0 [])).length > 12 then
                    (pySplitChar ',' ((pySplitChar '*' s).getD 0 [])).getD 12 []
                  else []) with
              | none => rw [h6] at h; simp [optNoneBind] at h
              | some tr =>
                rw [h6] at h
                simp only [optSomeBind] at h
                cases h7 : pyFloatOrNone
                    (if (pySplitChar ',' ((pySplitChar '*' s).getD 0 [])).length > 13 then
                      (pySplitChar ',' ((pySplitChar '*' s).getD 0 [])).getD 13 []
                    else []) with
                | none => rw [h7] at h; simp [optNoneBind] at h
                | some tn =>
                  rw [h7] at h
                  simp only [optSomeBind] at h
                  simp only [Option.pure_def, Option.some.injEq, Prod.mk.injEq] at h
                  exact Or.inl h.1.symm

theorem parseGpgga_false (now : ℚ) (st : NMEAParserState) (s : List Char)
    (st2 : NMEAParserState) (h : parseGpgga now st s = (false, st2)) : st2 = st := by
  unfold parseGpgga at h
  cases hc : parseGpggaCore now st s with
  | none =>
    rw [hc] at h
    exact (congrArg Prod.snd h).symm
  | some r =>
    rw [hc] at h
    simp only [Option.getD_some] at h
    subst h
    rcases parseGpggaCore_cases now st s false st2 hc with h | h
    · exact absurd h (by simp)
    · exact h

theorem parseGprmc_false (now : ℚ) (st : NMEAParserState) (s : List Char)
    (st2 : NMEAParserState) (h : parseGprmc now st s = (false, st2)) : st2 = st := by
  unfold parseGprmc at h
  cases hc : parseGprmcCore now st s with
  | none =>
    rw [hc] at h
    exact (congrArg Prod.snd h).symm
  | some r =>
    rw [hc] at h
    simp only [Option.getD_some] at h
    subst h
    rcases parseGprmcCore_cases now st s false st2 hc with h | h
    · exact absurd h (by simp)
    · exact h

theorem parseLxwp0_false (now : ℚ) (st : NMEAParserState) (s : List Char)
    (st2 : NMEAParserState) (h : parseLxwp0 now st s = (false, st2)) : st2 = st := by
  unfold parseLxwp0 at h
  cases hc : parseLxwp0Core now st s with
  | none =>
    rw [hc] at h
    exact (congrArg Prod.snd h).symm
  | some r =>
    rw [hc] at h
    simp only [Option.getD_some] at h
    subst h
    rcases parseLxwp0Core_cases now st s false st2 hc with h | h
    · exact absurd h (by simp)
    · exact h

theorem parseSentenceDispatch_false (now : ℚ) (st : NMEAParserState) (s : List Char)
    (st2 : NMEAParserState) (h : parseSentenceDispatch now st s = (false, st2)) :
    st2 = st := by
  unfold parseSentenceDispatch at h
  split at h
  · exact parseGpgga_false now st s st2 h
  · split at h
    · exact parseGprmc_false now st s st2 h
    · split at h
      · exact parseLxwp0_false now st s st2 h
      · exact (congrArg Prod.snd h).symm

/-- C3 (amended): whenever `parse_sentence` returns `False` — whatever
validation step failed (over-length, bad checksum, too few fields,
out-of-range coordinates, or a caught decode error) — the parser state is
returned entirely unchanged. The `NMEAParser` owns no error counter (its
`__init__` stores only the two records and two reception times, and nothing
in `parse_sentence` increments any counter), so no counter is incremented. -/
theorem c3_reject_leaves_state_intact (now : ℚ) (st : NMEAParserState) (raw : List Char)
    (st2 : NMEAParserState) (h : parseSentence now st raw = some (false, st2)) :
    st2 = st := by
  simp only [parseSentence] at h
  split at h
  · exact (Prod.mk.injEq _ _ _ _ ▸ (Option.some.inj h)).2.symm
  · split at h
    · exact (Prod.mk.injEq _ _ _ _ ▸ (Option.some.inj h)).2.symm
    · split at h
      · split at h
        · split at h
          · exact absurd h (by simp)
          · split at h
            · exact (Prod.mk.injEq _ _ _ _ ▸ (Option.some.inj h)).2.symm
            · exact parseSentenceDispatch_false now st _ st2 (Option.some.inj h)
        · exact parseSentenceDispatch_false now st _ st2 (Option.some.inj h)
      · exact parseSentenceDispatch_false now st _ st2 (Option.some.inj h)

/-- C3 witness: the amended theorem at the over-length sentence of 300
characters: rejected with the parser state intact. -/
theorem c3_reject_leaves_state_intact_witness :
    parseSentence 0 initNMEA (List.replicate 300 'A') = some (false, initNMEA) ∧
    initNMEA = initNMEA :=
  ⟨by decide,
   c3_reject_leaves_state_intact 0 initNMEA (List.replicate 300 'A') initNMEA (by decide)⟩

/-- C3 counterexample: at the concrete failing input of spec scenario 5 (the
sample GPGGA sentence with checksum digits `FF`), `parse_sentence` rejects
and returns the parser state identical to what it was — every field the
parser owns, none of which is an error counter, is unchanged, so no error
counter of the parser is incremented by exactly 1. -/
theorem c3_counterexample :
    parseSentence 0 initNMEA ggaBadChecksum = some (false, initNMEA) := by
  decide

/-! ## C2 -/

theorem validateCoordinates_out_of_range (lat lon : ℚ)
    (h : 90 < |lat| ∨ 180 < |lon|) : validateCoordinates lat lon = false := by
  unfold validateCoordinates
  split
  · rfl
  · split
    · rfl
    · rename_i h1 h2
      push_neg at h1 h2
      exfalso
      rcases h with h | h
      · exact absurd (abs_le.mpr ⟨by linarith [h1.1], h1.2⟩) (not_le.mpr h)
      · exact absurd (abs_le.mpr ⟨by linarith [h2.1], h2.2⟩) (not_le.mpr h)

theorem parseGpgga_invalid_coords (now : ℚ) (st : NMEAParserState) (s : List Char)
    (lat lon : ℚ) (hll : ggaLatLon (pySplitChar ',' s) = some (lat, lon))
    (hval : validateCoordinates lat lon = false) :
    parseGpgga now st s = (false, st) := by
  unfold parseGpgga
  cases hc : parseGpggaCore now st s with
  | none => rfl
  | some r =>
    simp only [Option.getD_some]
    rw [parseGpggaCore] at hc
    by_cases hlen : (pySplitChar ',' s).length < 15
    · rw [if_pos hlen] at hc
      simp only [Option.pure_def, Option.some.injEq] at hc
      exact hc.symm
    · rw [if_neg hlen] at hc
      cases h1 : decodeNmeaTime ((pySplitChar ',' s).getD 1 []) now with
      | none => rw [h1] at hc; simp [optNoneBind] at hc
      | some ts =>
        rw [h1] at hc
        simp only [optSomeBind] at hc
        rw [hll] at hc
        simp only [optSomeBind] at hc
        cases h3 : pyIntOrZero ((pySplitChar ',' s).getD 6 []) with
        | none => rw [h3] at hc; simp [optNoneBind] at hc
        | some fq =>
          rw [h3] at hc
          simp only [optSomeBind] at hc
          cases h4 : pyIntOrZero ((pySplitChar ',' s).getD 7 []) with
          | none => rw [h4] at hc; simp [optNoneBind] at hc
          | some sats =>
            rw [h4] at hc
            simp only [optSomeBind] at hc
            cases h5 : pyFloatOrZero ((pySplitChar ',' s).getD 9 []) with
            | none => rw [h5] at hc; simp [optNoneBind] at hc
            | some alt =>
              rw [h5] at hc
              simp only [optSomeBind] at hc
              rw [if_pos (by simp [hval])] at hc
              simp only [Option.pure_def, Option.some.injEq] at hc
              exact hc.symm

theorem parseGprmc_invalid_coords (now : ℚ) (st : NMEAParserState) (s : List Char)
    (lat lon : ℚ) (hll : rmcLatLon (pySplitChar ',' s) = some (lat, lon))
    (hval : validateCoordinates lat lon = false) :
    parseGprmc now st s = (false, st) := by
  unfold parseGprmc
  cases hc : parseGprmcCore now st s with
  | none => rfl
  | some r =>
    simp only [Option.getD_some]
    rw [parseGprmcCore] at hc
    by_cases hlen : (pySplitChar ',' s).length < 12
    · rw [if_pos hlen] at hc
      simp only [Option.pure_def, Option.some.injEq] at hc
      exact hc.symm
    · rw [if_neg hlen] at hc
      cases h1 : decodeNmeaTime ((pySplitChar ',' s).getD 1 []) now with
      | none => rw [h1] at hc; simp [optNoneBind] at hc
      | some ts =>
        rw [h1] at hc
        simp only [optSomeBind] at hc
        rw [hll] at hc
        simp only [optSomeBind] at hc
        cases h3 : pyFloatOrZero ((pySplitChar ',' s).getD 7 []) with
        | none => rw [h3] at hc; simp [optNoneBind] at hc
        | some gs =>
          rw [h3] at hc
          simp only [optSomeBind] at hc
          cases h4 : pyFloatOrZero ((pySplitChar ',' s).getD 8 []) with
          | none => rw [h4] at hc; simp [optNoneBind] at hc
          | some tt =>
            rw [h4] at hc
            simp only [optSomeBind] at hc
            rw [if_pos (by simp [hval])] at hc
            simp only [Option.pure_def, Option.some.injEq] at hc
            exact hc.symm

/-- C2: a GPGGA or GPRMC sentence whose decoded latitude exceeds 90 in
absolute value or whose decoded longitude exceeds 180 in absolute value is
rejected (`False`) with the parser state — in particular the stored
`GPSPosition` record — exactly as it was before the call. -/
theorem c2_out_of_range_coordinates_rejected (now : ℚ) (st : NMEAParserState)
    (s : List Char) (lat lon : ℚ) (hout : 90 < |lat| ∨ 180 < |lon|) :
    (ggaLatLon (pySplitChar ',' s) = some (lat, lon) →
      parseGpgga now st s = (false, st)) ∧
    (rmcLatLon (pySplitChar ',' s) = some (lat, lon) →
      parseGprmc now st s = (false, st)) :=
  ⟨fun hll => parseGpgga_invalid_coords now st s lat lon hll
      (validateCoordinates_out_of_range lat lon hout),
   fun hll => parseGprmc_invalid_coords now st s lat lon hll
      (validateCoordinates_out_of_range lat lon hout)⟩

/-- C2 witness: a GPGGA sentence decoding to latitude 95.889515 and a GPRMC
sentence decoding to longitude 191.890595 are both rejected with the parser
state unchanged. -/
theorem c2_out_of_range_coordinates_rejected_witness :
    parseGpgga 0 initNMEA ggaBadLatitude = (false, initNMEA) ∧
    parseGprmc 0 initNMEA rmcBadLongitude = (false, initNMEA) :=
  ⟨(c2_out_of_range_coordinates_rejected 0 initNMEA ggaBadLatitude 95.889515 13.890595
      (Or.inl (by norm_num [abs_of_nonneg]))).1 (by decide),
   (c2_out_of_range_coordinates_rejected 0 initNMEA rmcBadLongitude 45.889515 191.890595
      (Or.inr (by norm_num [abs_of_nonneg]))).2 (by decide)⟩

/-! ## C7 -/

theorem lookup_filterMap_combine (fac : ℚ) (p2 : Entry) (k : String) (v1 v2 : Val)
    (p1 : Entry) (hk : k ≠ "timestamp")
    (h1 : List.lookup k p1 = some v1) (h2 : List.lookup k p2 = some v2) :
    List.lookup k (p1.filterMap (fun kv =>
      if kv.1 = "timestamp" then none
      else
        match dictLookup p2 kv.1 with
        | some w => some (kv.1, combineVal fac kv.2 w)
        | none => none)) = some (combineVal fac v1 v2) := by
  induction p1 with
  | nil => simp [List.lookup] at h1
  | cons kv rest ih =>
    rcases kv with ⟨k0, w0⟩
    by_cases hk0 : k0 = k
    · subst hk0
      have hw : w0 = v1 := by simpa [List.lookup] using h1
      subst hw
      simp [List.filterMap_cons, hk, dictLookup, h2, List.lookup]
    · have h1r : List.lookup k rest = some v1 := by
        simpa [List.lookup, beq_eq_false_iff_ne.mpr (fun h => hk0 h.symm)] using h1
      by_cases hts : k0 = "timestamp"
      · simp only [List.filterMap_cons, hts, if_pos rfl]
        exact ih h1r
      · cases hl : dictLookup p2 k0 with
        | none =>
          simp only [List.filterMap_cons, if_neg hts, hl]
          exact ih h1r
        | some w =>
          simp only [List.filterMap_cons, if_neg hts, hl]
          simp only [List.lookup, beq_eq_false_iff_ne.mpr (fun h => hk0 h.symm)]
          exact ih h1r

theorem lookup_interpPair (t : ℚ) (p1 p2 : Entry) (k : String) (v1 v2 : Val)
    (hk : k ≠ "timestamp") (h1 : List.lookup k p1 = some v1)
    (h2 : List.lookup k p2 = some v2) :
    dictLookup (interpPair t p1 p2) k =
      some (combineVal (interpFactor t (entryTimestamp p1) (entryTimestamp p2)) v1 v2) := by
  unfold interpPair dictLookup
  simp only [List.lookup, beq_eq_false_iff_ne.mpr hk]
  exact lookup_filterMap_combine _ p2 k v1 v2 p1 hk h1 h2

/-- C7: `interpolate` returns the single stored point when the history has
exactly one entry; the earliest entry when `t` is at or before the first
timestamp; failing that, the latest entry when `t` is at or after the last
timestamp; otherwise the record built from the first enclosing pair
`(p1, p2)`, in which every field present in both samples is combined as
`v1 + factor * (v2 - v1)` with `factor = (t - t1) / (t2 - t1)` (0 when
`t1 = t2`) when both values are numeric, and as the nearer sample's value
otherwise (`p2` when `factor > 1/2`). -/
theorem c7_interpolate_spec (hist : List Entry) (t : ℚ) :
    (∀ e, hist = [e] → interpolateHistory hist t = e) ∧
    (∀ e rest, hist = e :: rest → rest ≠ [] → t ≤ entryTimestamp e →
      interpolateHistory hist t = e) ∧
    (∀ e rest, hist = e :: rest → rest ≠ [] → ¬ t ≤ entryTimestamp e →
      entryTimestamp (hist.getLastD e) ≤ t →
      interpolateHistory hist t = hist.getLastD e) ∧
    (∀ e rest p1 p2, hist = e :: rest → rest ≠ [] → ¬ t ≤ entryTimestamp e →
      ¬ entryTimestamp (hist.getLastD e) ≤ t → findPair t hist = some (p1, p2) →
      interpolateHistory hist t = interpPair t p1 p2) ∧
    (∀ p1 p2 k v1 v2, k ≠ "timestamp" → List.lookup k p1 = some v1 →
      List.lookup k p2 = some v2 →
      dictLookup (interpPair t p1 p2) k =
        some (if v1.isNumeric && v2.isNumeric then
          Val.num (v1.toQ +
            (if entryTimestamp p2 = entryTimestamp p1 then 0
             else (t - entryTimestamp p1) / (entryTimestamp p2 - entryTimestamp p1)) *
            (v2.toQ - v1.toQ))
        else if (1 : ℚ) / 2 <
            (if entryTimestamp p2 = entryTimestamp p1 then 0
             else (t - entryTimestamp p1) / (entryTimestamp p2 - entryTimestamp p1)) then v2
        else v1)) := by
  refine ⟨?_, ?_, ?_, ?_, ?_⟩
  · intro e he
    subst he
    simp [interpolateHistory]
  · intro e rest he hne ht
    subst he
    rw [interpolateHistory]
    rw [if_neg (by simpa [List.isEmpty_iff] using hne), if_pos ht]
  · intro e rest he hne ht hlast
    subst he
    rw [interpolateHistory]
    rw [if_neg (by simpa [List.isEmpty_iff] using hne), if_neg ht, if_pos hlast]
  · intro e rest p1 p2 he hne ht hlast hfp
    subst he
    rw [interpolateHistory]
    rw [if_neg (by simpa [List.isEmpty_iff] using hne), if_neg ht, if_neg hlast, hfp]
  · intro p1 p2 k v1 v2 hk h1 h2
    rw [lookup_interpPair t p1 p2 k v1 v2 hk h1 h2]
    simp [combineVal, interpFactor]

/-- C7 witness: the clauses at concrete two-point histories with samples at
t = 0 and t = 10; at t = 4 the numeric field `x` interpolates from 10 to 20
with factor 0.4, giving 14. -/
theorem c7_interpolate_spec_witness :
    interpolateHistory [sample0] 99 = sample0 ∧
    interpolateHistory [sample0, sample10] (-1) = sample0 ∧
    interpolateHistory [sample0, sample10] 25 =
      ([sample0, sample10].getLastD sample0) ∧
    interpolateHistory [sample0, sample10] 4 = interpPair 4 sample0 sample10 ∧
    dictLookup (interpPair 4 sample0 sample10) "x" = some (Val.num 14) :=
  ⟨(c7_interpolate_spec [sample0] 99).1 sample0 rfl,
   (c7_interpolate_spec [sample0, sample10] (-1)).2.1 sample0 [sample10] rfl
     (by decide) (by decide),
   (c7_interpolate_spec [sample0, sample10] 25).2.2.1 sample0 [sample10] rfl
     (by decide) (by decide) (by decide),
   (c7_interpolate_spec [sample0, sample10] 4).2.2.2.1 sample0 [sample10]
     sample0 sample10 rfl (by decide) (by decide) (by decide) (by decide),
   by
    rw [(c7_interpolate_spec [sample0, sample10] 4).2.2.2.2 sample0 sample10 "x"
      (Val.num 10) (Val.num 20) (by decide) (by decide) (by decide)]
    decide⟩

end CSB
